import Mathlib

/-!
Verification development for the fpgaboy repository: the simulation helper
classes in src/sim/pyverilog.py and src/sim/ppu.py, the pixel-row mixing
function of src/sim/test_background_fetcher.py, and models of the
tile-fetch pipeline (BackgroundFetcher) and pixel FIFO whose SystemVerilog
sources are exercised by the cocotb tests but are not part of the Python
sources, reconstructed from the specification and pinned by the tests.
-/

namespace FPGABoy

/-! ## Wire name registry (src/sim/pyverilog.py, Wire.__init__)

Wire identifiers are modelled as natural numbers (the anonymous branch of
Wire.__init__ draws 64-bit integers from getrandbits; the registry
Wire._names is a process-wide set, modelled as a list).  The explicit-name
branch raises ValueError when the name is taken, modelled as `none`. -/

/-- Explicit-name branch of Wire.__init__: if the requested name is already
in the registry the constructor raises ValueError (modelled `none`);
otherwise it completes and the registry gains the name. -/
def wireInitNamed (names : List Nat) (name : Nat) : Option (List Nat) :=
  if name ∈ names then none else some (name :: names)

/-- Anonymous-name branch of Wire.__init__: the loop
`name = getrandbits(64); while name not in Wire._names: name = getrandbits(64)`
examines the candidate stream `c` starting at draw `k` and exits with the
first candidate that IS already in the registry (the condition as written in
the source).  `fuel` bounds the number of draws examined; `none` means the
loop has not terminated within `fuel` draws. -/
def wireInitAnonName (c : Nat → Nat) (names : List Nat) : Nat → Nat → Option Nat
  | _, 0 => none
  | k, fuel + 1 => if c k ∈ names then some (c k) else wireInitAnonName c names (k + 1) fuel

/-! ## Latch-on-clock updates (src/sim/pyverilog.py Buffer.tick, src/sim/ppu.py) -/

/-- State of a pyverilog Buffer: the clock wire's value, the input line's
value, and the latched `_value` (None before the first high-clock tick).
Wire values are nonnegative integers; Python truthiness of an integer is
being nonzero. -/
structure Buffer where
  clock : Nat
  input : Nat
  value : Option Nat
deriving DecidableEq

/-- Buffer.tick from src/sim/pyverilog.py: when the clock value is truthy
the latched value becomes the input line's value; otherwise nothing happens. -/
def Buffer.tick (b : Buffer) : Buffer :=
  if b.clock ≠ 0 then { b with value := some b.input } else b

/-- State of the PictureProcessingUnit of src/sim/ppu.py: clock wire value,
input wire value, and the latched `_value` (initialised to 0). -/
structure PictureProcessingUnit where
  clock : Nat
  input : Nat
  value : Nat
deriving DecidableEq

/-- PictureProcessingUnit.tick from src/sim/ppu.py: when the clock value is
truthy the latched value becomes the input wire's value; otherwise nothing
happens. -/
def PictureProcessingUnit.tick (p : PictureProcessingUnit) : PictureProcessingUnit :=
  if p.clock ≠ 0 then { p with value := p.input } else p

/-! ## Pixel-row mixing (make_row in src/sim/test_background_fetcher.py) -/

/-- make_row from src/sim/test_background_fetcher.py: mixes the low and high
tile-data bytes into the eight 2-bit pixels,
pixel i = (((hi >> i) & 1) << 1) | ((lo >> i) & 1). -/
def make_row (lo hi : Nat) : List Nat :=
  (List.range 8).map fun i => (((hi >>> i) &&& 1) <<< 1) ||| ((lo >>> i) &&& 1)

/-! ## Tile-fetch pipeline (BackgroundFetcher)

Modelled from the spec: the SystemVerilog source
hdl/ppu/PixelFIFO/BackgroundFetcher.sv is exercised by
src/sim/test_background_fetcher.py but is not among the Python sources, so
the state machine below is reconstructed from spec sections 3, 4.1 and 6.
Where the cocotb tests pin the observable outputs (the per-tick
check_outputs assertions in test_reset, test_nonpush_timing,
test_no_valid_data and test_no_bg_fifo), the tests' asserted values are
followed; in particular the tests show the row output held valid with the
bus released on every Push-phase tick spent waiting for the consumer, and
the row committed on the same tick the high byte settles when the consumer
is ready.  The tile-map select and window-map select inputs are modelled at
their reset value 0 (map base 0x9800); the fine-scroll contribution of
scroll_x to the tile-map address is not specified by the spec (the address
is tile_map_base + column counter) and the claims drive scroll = 0. -/

/-- The four fetch phases of the pipeline (spec section 3); TileNumber is
the initial and reset state. -/
inductive FetchPhase
  | TileNumber
  | DataLow
  | DataHigh
  | Push
deriving DecidableEq

/-- The two step-clock ticks each address-issuing phase spans. -/
inductive SubStep
  | Request
  | Settle
deriving DecidableEq

/-- The active tile-map layer. -/
inductive Layer
  | Background
  | Window
deriving DecidableEq

/-- Tile-data addressing mode: signed indices from base 0x9000 or unsigned
indices from base 0x8000. -/
inductive AddressingMode
  | Signed8800
  | Unsigned8000
deriving DecidableEq

/-- FetcherState from spec section 3. -/
structure FetcherState where
  phase : FetchPhase
  substep : SubStep
  layer : Layer
  tile_index : Nat
  latched_low_byte : Nat
  pending_row : List Nat
  bg_column : Nat
  window_column : Nat
deriving DecidableEq

/-- The per-tick inputs of the pipeline (spec section 6). -/
structure FetcherInputs where
  reset : Bool
  pixel_x : Nat
  pixel_y : Nat
  scroll_x : Nat
  scroll_y : Nat
  window_x : Nat
  window_y_match : Bool
  window_enable : Bool
  addressing_mode : AddressingMode
  mem_byte_in : Nat
  mem_data_valid : Bool
  downstream_ready : Bool
  fetch_stall : Bool
deriving DecidableEq

/-- The per-tick outputs of the pipeline (spec section 6). -/
structure FetcherOutputs where
  mem_address : Int
  mem_address_valid : Bool
  row_out : List Nat
  row_valid : Bool
  bus_busy : Bool
deriving DecidableEq

/-- Modelled from the spec: the reset state
(TileNumber, Request, Background, tile_index 0, columns 0, row cleared). -/
def resetState : FetcherState where
  phase := .TileNumber
  substep := .Request
  layer := .Background
  tile_index := 0
  latched_low_byte := 0
  pending_row := List.replicate 8 0
  bg_column := 0
  window_column := 0

/-- Modelled from the spec: the idle-but-claimed default outputs (no address
asserted, no row asserted, bus owned), as checked right after reset by
test_reset. -/
def idleOutputs : FetcherOutputs where
  mem_address := 0
  mem_address_valid := false
  row_out := List.replicate 8 0
  row_valid := false
  bus_busy := true

/-- Modelled from the spec: the sampled memory response, the returned byte
when the data-valid flag is high and the sentinel 0xFF otherwise. -/
def sampleByte (i : FetcherInputs) : Nat :=
  if i.mem_data_valid then i.mem_byte_in else 0xFF

/-- Modelled from the spec: tile-map base per layer, with the map-select
inputs at their reset value 0 (both maps at 0x9800, as driven by the tests). -/
def tileMapBase : Layer → Int
  | .Background => 0x9800
  | .Window => 0x9800

/-- Modelled from the spec: the active layer's column counter. -/
def columnIndex (s : FetcherState) : Nat :=
  match s.layer with
  | .Background => s.bg_column
  | .Window => s.window_column

/-- Modelled from the spec: tile-data base address per addressing mode. -/
def dataBase : AddressingMode → Int
  | .Signed8800 => 0x9000
  | .Unsigned8000 => 0x8000

/-- Modelled from the spec: interpretation of the tile index, signed 8-bit
under Signed8800 and unsigned under Unsigned8000. -/
def signedVal (mode : AddressingMode) (t : Nat) : Int :=
  match mode with
  | .Signed8800 => if t < 128 then (t : Int) else (t : Int) - 256
  | .Unsigned8000 => (t : Int)

/-- Modelled from the spec: the even byte offset selecting the 2-byte row
within the 16-byte tile (the in-tile row formula is the domain convention
the spec leaves unverified; the claims drive it to 0). -/
def rowOffset (i : FetcherInputs) : Int :=
  2 * (((i.pixel_y + i.scroll_y) % 8 : Nat) : Int)

/-- Modelled from the spec: the DataLow request address
data_base(mode) + signed_or_unsigned(tile_index) * 16 + row_offset. -/
def dataLowAddr (i : FetcherInputs) (t : Nat) : Int :=
  dataBase i.addressing_mode + signedVal i.addressing_mode t * 16 + rowOffset i

/-- Modelled from the spec: whether the window layer takes over at the next
TileNumber phase boundary (window enabled, vertical condition met,
horizontal position at the trigger column; the unexecuted window scenario
of the tests compares pixel_x against window_x - 7). -/
def windowTrigger (i : FetcherInputs) : Bool :=
  i.window_enable && i.window_y_match && decide (i.pixel_x + 7 ≥ i.window_x)

/-- Modelled from the spec: the transition taken on a committed row, back
to a TileNumber request with the active layer's column counter advanced
(mod 32 for the background) and the layer re-evaluated at the phase
boundary. -/
def commitNext (i : FetcherInputs) (s : FetcherState) : FetcherState :=
  match s.layer with
  | .Background =>
      { s with
        phase := .TileNumber
        substep := .Request
        bg_column := (s.bg_column + 1) % 32
        layer := if windowTrigger i then .Window else .Background }
  | .Window =>
      { s with
        phase := .TileNumber
        substep := .Request
        window_column := s.window_column + 1 }

/-- Modelled from the spec: one step-clock tick of the pipeline, the pure
step function (state, inputs) to (state, outputs) of spec sections 4.1 and
5.  Reset is synchronous and total; a fetch stall freezes the progression;
the three address phases each span a Request tick (address asserted, bus
owned) and a Settle tick (address deasserted, response sampled with the
0xFF sentinel); after the high byte settles the row is committed on the
first tick with the consumer ready, the wait being spent in Push with the
row output held and the bus released. -/
def step (s : FetcherState) (i : FetcherInputs) : FetcherState × FetcherOutputs :=
  if i.reset then
    (resetState, idleOutputs)
  else if i.fetch_stall then
    (s, idleOutputs)
  else
    match s.phase, s.substep with
    | .TileNumber, .Request =>
        ({ s with substep := .Settle },
         { idleOutputs with
            mem_address := tileMapBase s.layer + (columnIndex s : Int)
            mem_address_valid := true })
    | .TileNumber, .Settle =>
        ({ s with phase := .DataLow, substep := .Request, tile_index := sampleByte i },
         idleOutputs)
    | .DataLow, .Request =>
        ({ s with substep := .Settle },
         { idleOutputs with
            mem_address := dataLowAddr i s.tile_index
            mem_address_valid := true })
    | .DataLow, .Settle =>
        ({ s with phase := .DataHigh, substep := .Request, latched_low_byte := sampleByte i },
         idleOutputs)
    | .DataHigh, .Request =>
        ({ s with substep := .Settle },
         { idleOutputs with
            mem_address := dataLowAddr i s.tile_index + 1
            mem_address_valid := true })
    | .DataHigh, .Settle =>
        if i.downstream_ready then
          (commitNext i { s with pending_row := make_row s.latched_low_byte (sampleByte i) },
           { idleOutputs with
              row_out := make_row s.latched_low_byte (sampleByte i)
              row_valid := true })
        else
          ({ s with phase := .Push, substep := .Request,
                    pending_row := make_row s.latched_low_byte (sampleByte i) },
           idleOutputs)
    | .Push, _ =>
        if i.downstream_ready then
          (commitNext i s,
           { idleOutputs with row_out := s.pending_row, row_valid := true })
        else
          (s,
           { idleOutputs with
              row_out := s.pending_row
              row_valid := true
              bus_busy := false })

/-- Iterated step-clock ticks under constant inputs, returning the state. -/
def stepsFrom (s : FetcherState) (i : FetcherInputs) : Nat → FetcherState
  | 0 => s
  | n + 1 => (step (stepsFrom s i n) i).1

/-- The constant inputs of test_nonpush_timing: no reset, no stall, scroll
and window off, signed addressing, data byte 0 valid, consumer ready. -/
def nonpushInputs : FetcherInputs where
  reset := false
  pixel_x := 0
  pixel_y := 0
  scroll_x := 0
  scroll_y := 0
  window_x := 0
  window_y_match := false
  window_enable := false
  addressing_mode := .Signed8800
  mem_byte_in := 0
  mem_data_valid := true
  downstream_ready := true
  fetch_stall := false

/-- The constant inputs of test_no_valid_data: as nonpushInputs but with
the memory data-valid flag low throughout. -/
def noDataInputs : FetcherInputs :=
  { nonpushInputs with mem_data_valid := false }

/-- The constant inputs of the stall portion of test_no_bg_fifo: as
nonpushInputs but with the consumer not ready. -/
def stallInputs : FetcherInputs :=
  { nonpushInputs with downstream_ready := false }

/-- The canonical start-of-cycle state after at least one committed row: a
TileNumber request on background column c, the last row (all-zero tile
data under the test inputs) still latched. -/
def cycleState (c : Nat) : FetcherState where
  phase := .TileNumber
  substep := .Request
  layer := .Background
  tile_index := 0
  latched_low_byte := 0
  pending_row := make_row 0 0
  bg_column := c
  window_column := 0

/-! ## Pixel FIFO

Modelled from the spec: the SystemVerilog source hdl/fifo.sv is exercised
by src/sim/test_fifo.py but is not among the Python sources, so the queue
below is reconstructed from spec section 4.2: a bounded queue of capacity
depth, a dropped-not-overwriting push at full with a full flag, an
invalid-flagged stateless pop at empty, and simultaneous push and pop in
one tick both taking effect (the push admission is judged against the
pre-tick occupancy, the externally observable size signal).  The full flag
is the post-tick occupancy reaching the capacity, as asserted by
test_overwriting. -/

/-- A bounded FIFO: its capacity and its live elements, oldest first. -/
structure FIFO where
  depth : Nat
  buf : List Nat
deriving DecidableEq

/-- The externally observable occupancy: the number of live elements. -/
def FIFO.occupancy (f : FIFO) : Nat := f.buf.length

/-- The per-tick outputs of the FIFO. -/
structure FifoOut where
  data_out : Nat
  data_valid : Bool
  full : Bool
  occupancy_out : Nat
deriving DecidableEq

/-- Modelled from the spec: one clock tick of the FIFO with write-enable,
read-enable and the input value.  A read removes and returns the oldest
element with the data-valid flag, and is an invalid-flagged no-op when
empty; a write appends unless the pre-tick occupancy is at capacity, in
which case it is dropped; both may happen in one tick. -/
def FIFO.tick (f : FIFO) (wr rd : Bool) (din : Nat) : FIFO × FifoOut :=
  let popped : Option Nat := if rd then f.buf.head? else none
  let buf1 : List Nat := if rd then f.buf.tail else f.buf
  let buf2 : List Nat := if wr && decide (f.buf.length < f.depth) then buf1 ++ [din] else buf1
  ({ f with buf := buf2 },
   { data_out := popped.getD 0
     data_valid := popped.isSome
     full := decide (buf2.length = f.depth)
     occupancy_out := buf2.length })

/-! ## Helper lemmas -/

/-- Two one-bit quantities mixed as high·2 + low stay below 4. -/
lemma pix_le_three (a b : Nat) (ha : a ≤ 1) (hb : b ≤ 1) : (a <<< 1) ||| b ≤ 3 := by
  rcases Nat.le_one_iff_eq_zero_or_eq_one.mp ha with h | h <;>
    rcases Nat.le_one_iff_eq_zero_or_eq_one.mp hb with h2 | h2 <;>
      subst h <;> subst h2 <;> decide

lemma stepsFrom_add (s : FetcherState) (i : FetcherInputs) (m n : Nat) :
    stepsFrom s i (m + n) = stepsFrom (stepsFrom s i m) i n := by
  induction n with
  | zero => rfl
  | succ n ih =>
      show (step (stepsFrom s i (m + n)) i).1 = _
      rw [ih]
      rfl

lemma stepsFrom_cycle_six (c : Nat) :
    stepsFrom (cycleState c) nonpushInputs 6 = cycleState ((c + 1) % 32) := rfl

lemma stepsFrom_first_cycle :
    stepsFrom resetState nonpushInputs 6 = cycleState 1 := rfl

lemma stepsFrom_cycles (x : Nat) :
    stepsFrom resetState nonpushInputs (6 * (x + 1)) = cycleState ((x + 1) % 32) := by
  induction x with
  | zero => exact stepsFrom_first_cycle
  | succ x ih =>
      have h6 : 6 * (x + 1 + 1) = 6 * (x + 1) + 6 := by ring
      rw [h6, stepsFrom_add, ih, stepsFrom_cycle_six]
      congr 1
      omega

/-! ## Claim theorems -/

/-- Claim C9 (refuted by the source, recorded as a code defect): the
anonymous branch of Wire.__init__ does NOT generate a fresh name.  Its
retry loop, as written, never terminates while the registry holds none of
the drawn candidates (in particular on an empty registry), and whenever it
does terminate the chosen name was ALREADY in Wire._names, contradicting
the constructor's own documented postcondition.  The explicit-name branch
does behave as claimed: it fails exactly when the name is taken. -/
theorem wire_anon_name_inverted :
    (∀ (names : List Nat) (name : Nat), wireInitNamed names name = none ↔ name ∈ names) ∧
    (∀ (c : Nat → Nat) (k fuel : Nat), wireInitAnonName c [] k fuel = none) ∧
    (∀ (c : Nat → Nat) (names : List Nat) (k fuel n : Nat),
      wireInitAnonName c names k fuel = some n → n ∈ names) := by
  refine ⟨?_, ?_, ?_⟩
  · intro names name
    unfold wireInitNamed
    by_cases h : name ∈ names <;> simp [h]
  · intro c k fuel
    induction fuel generalizing k with
    | zero => rfl
    | succ fuel ih => simpa [wireInitAnonName] using ih (k + 1)
  · intro c names k fuel n h
    induction fuel generalizing k with
    | zero => exact absurd h (by simp [wireInitAnonName])
    | succ fuel ih =>
        rw [wireInitAnonName] at h
        by_cases hc : c k ∈ names
        · rw [if_pos hc] at h
          obtain rfl : c k = n := Option.some.inj h
          exact hc
        · rw [if_neg hc] at h
          exact ih (k + 1) h

/-- Witness for the wire-registry defect theorem: a constant candidate
stream on the one-element registry terminates immediately with the already
registered name, and the theorem places that name in the registry. -/
theorem wire_anon_name_inverted_witness :
    wireInitAnonName (fun _ => 3) [3] 0 1 = some 3 ∧ (3 : Nat) ∈ [3] :=
  ⟨by decide, wire_anon_name_inverted.2.2 (fun _ => 3) [3] 0 1 3 (by decide)⟩

/-- Claim C10: Buffer.tick and PictureProcessingUnit.tick latch the input
value exactly when the clock value is truthy, leave the latch unchanged
when it is falsy, and modify no other field. -/
theorem tick_latches_only (b : Buffer) (p : PictureProcessingUnit) :
    (b.clock ≠ 0 → Buffer.tick b = ⟨b.clock, b.input, some b.input⟩) ∧
    (b.clock = 0 → Buffer.tick b = b) ∧
    (p.clock ≠ 0 → PictureProcessingUnit.tick p = ⟨p.clock, p.input, p.input⟩) ∧
    (p.clock = 0 → PictureProcessingUnit.tick p = p) := by
  refine ⟨fun h => ?_, fun h => ?_, fun h => ?_, fun h => ?_⟩ <;>
    simp [Buffer.tick, PictureProcessingUnit.tick, h]

/-- Witness for the latch theorem: a high clock latches, a low clock holds. -/
theorem tick_latches_only_witness :
    Buffer.tick ⟨1, 42, none⟩ = ⟨1, 42, some 42⟩ ∧
    PictureProcessingUnit.tick ⟨0, 7, 9⟩ = ⟨0, 7, 9⟩ :=
  ⟨(tick_latches_only ⟨1, 42, none⟩ ⟨0, 7, 9⟩).1 (by decide),
   (tick_latches_only ⟨1, 42, none⟩ ⟨0, 7, 9⟩).2.2.2 (by decide)⟩

/-- Claim C6: an under-capacity push appends and raises occupancy by one;
a push at capacity is dropped with the full flag asserted and nothing
overwritten; a pop from a non-empty queue removes and returns the oldest
element with the data-valid flag and lowers occupancy by one; a pop from
an empty queue deasserts the data-valid flag and changes no state. -/
theorem fifo_bounded_ops (f : FIFO) (d : Nat) :
    (f.occupancy < f.depth →
        (FIFO.tick f true false d).1.buf = f.buf ++ [d] ∧
        (FIFO.tick f true false d).2.occupancy_out = f.occupancy + 1) ∧
    (f.occupancy = f.depth →
        (FIFO.tick f true false d).1.buf = f.buf ∧
        (FIFO.tick f true false d).2.full = true ∧
        (FIFO.tick f true false d).2.occupancy_out = f.occupancy) ∧
    (0 < f.occupancy →
        (FIFO.tick f false true d).2.data_valid = true ∧
        (FIFO.tick f false true d).2.data_out = f.buf.headD 0 ∧
        (FIFO.tick f false true d).1.buf = f.buf.tail ∧
        (FIFO.tick f false true d).2.occupancy_out = f.occupancy - 1) ∧
    (f.occupancy = 0 →
        (FIFO.tick f false true d).2.data_valid = false ∧
        (FIFO.tick f false true d).1 = f ∧
        (FIFO.tick f false true d).2.occupancy_out = 0) := by
  obtain ⟨D, l⟩ := f
  refine ⟨fun h => ?_, fun h => ?_, fun h => ?_, fun h => ?_⟩
  · simp [FIFO.tick, FIFO.occupancy] at h ⊢
    simp [h]
  · simp [FIFO.tick, FIFO.occupancy] at h ⊢
    simp [h]
  · simp [FIFO.occupancy] at h
    obtain ⟨a, l', rfl⟩ := List.exists_cons_of_ne_nil (List.ne_nil_of_length_pos h)
    simp [FIFO.tick, FIFO.occupancy]
  · simp [FIFO.occupancy] at h
    subst h
    simp [FIFO.tick, FIFO.occupancy]

/-- Witness for the FIFO push/pop theorem: a push onto a half-full queue
of capacity 2 appends. -/
theorem fifo_bounded_ops_witness :
    FIFO.occupancy ⟨2, [5]⟩ < 2 ∧ (FIFO.tick ⟨2, [5]⟩ true false 7).1.buf = [5, 7] :=
  ⟨by decide, ((fifo_bounded_ops ⟨2, [5]⟩ 7).1 (by decide)).1⟩

/-- Claim C7: with the queue strictly between empty and full, a push and a
pop on the same tick both take effect, the pop returning the oldest
element as valid, the push appending, and the occupancy unchanged. -/
theorem fifo_simultaneous (f : FIFO) (d : Nat)
    (h1 : 0 < f.occupancy) (h2 : f.occupancy < f.depth) :
    (FIFO.tick f true true d).2.data_valid = true ∧
    (FIFO.tick f true true d).2.data_out = f.buf.headD 0 ∧
    (FIFO.tick f true true d).1.buf = f.buf.tail ++ [d] ∧
    (FIFO.tick f true true d).2.occupancy_out = f.occupancy := by
  obtain ⟨D, l⟩ := f
  simp [FIFO.occupancy] at h1 h2
  obtain ⟨a, l', rfl⟩ := List.exists_cons_of_ne_nil (List.ne_nil_of_length_pos h1)
  have h2' : l'.length + 1 < D := by simpa using h2
  simp [FIFO.tick, FIFO.occupancy, h2']

/-- Witness for the simultaneous-access theorem at a concrete queue. -/
theorem fifo_simultaneous_witness :
    (FIFO.tick ⟨3, [4, 9]⟩ true true 6).2.data_out = 4 ∧
    (FIFO.tick ⟨3, [4, 9]⟩ true true 6).1.buf = [9, 6] ∧
    (FIFO.tick ⟨3, [4, 9]⟩ true true 6).2.occupancy_out = 2 :=
  ⟨(fifo_simultaneous ⟨3, [4, 9]⟩ 6 (by decide) (by decide)).2.1,
   (fifo_simultaneous ⟨3, [4, 9]⟩ 6 (by decide) (by decide)).2.2.1,
   (fifo_simultaneous ⟨3, [4, 9]⟩ 6 (by decide) (by decide)).2.2.2⟩

/-- Claim C4: from every prior state, a step with the synchronous reset
asserted deasserts the address-valid and row-valid outputs, asserts the
bus-busy output, and returns the state to a TileNumber Request on the
Background layer with tile index 0, both column counters 0 and the
pending row cleared. -/
theorem reset_returns_initial (s : FetcherState) (i : FetcherInputs) (h : i.reset = true) :
    (step s i).2.mem_address_valid = false ∧
    (step s i).2.row_valid = false ∧
    (step s i).2.bus_busy = true ∧
    (step s i).1 = resetState ∧
    resetState.phase = .TileNumber ∧
    resetState.substep = .Request ∧
    resetState.layer = .Background ∧
    resetState.tile_index = 0 ∧
    resetState.bg_column = 0 ∧
    resetState.window_column = 0 ∧
    resetState.pending_row = List.replicate 8 0 := by
  simp [step, h, resetState, idleOutputs]

/-- Witness for the reset theorem at a mid-fetch state. -/
theorem reset_returns_initial_witness :
    (step ⟨.DataHigh, .Settle, .Window, 17, 99, [1, 2, 3], 9, 4⟩
        ⟨true, 0, 0, 0, 0, 0, false, false, .Signed8800, 0, true, true, false⟩).1 = resetState :=
  (reset_returns_initial ⟨.DataHigh, .Settle, .Window, 17, 99, [1, 2, 3], 9, 4⟩
      ⟨true, 0, 0, 0, 0, 0, false, false, .Signed8800, 0, true, true, false⟩ rfl).2.2.2.1

/-- Claim C2: under the all-zero inputs of test_nonpush_timing, the
TileNumber Request tick of background fetch cycle x (the first of its six
step-ticks) asserts address 0x9800 + (x mod 32) with the address-valid
output high, for every column x below 160. -/
theorem tile_number_addressing (x : Nat) (hx : x < 160) :
    (step (stepsFrom resetState nonpushInputs (6 * x)) nonpushInputs).2.mem_address
      = 0x9800 + ((x % 32 : Nat) : Int) ∧
    (step (stepsFrom resetState nonpushInputs (6 * x)) nonpushInputs).2.mem_address_valid
      = true := by
  cases x with
  | zero => exact ⟨rfl, rfl⟩
  | succ y =>
      rw [stepsFrom_cycles y]
      exact ⟨rfl, rfl⟩

/-- Witness for the tile-number addressing theorem at column 33, one past
the 32-tile wrap. -/
theorem tile_number_addressing_witness :
    (33 : Nat) < 160 ∧
    (step (stepsFrom resetState nonpushInputs (6 * 33)) nonpushInputs).2.mem_address
      = 0x9800 + ((33 % 32 : Nat) : Int) :=
  ⟨by decide, (tile_number_addressing 33 (by decide)).1⟩

/-- Claim C8: with reset and the external stall deasserted, the bus-busy
output is deasserted on a tick exactly when the pipeline is in the Push
phase with the downstream consumer not ready; every other tick, including
the commit tick itself, keeps the bus claimed. -/
theorem bus_release_iff (s : FetcherState) (i : FetcherInputs)
    (h1 : i.reset = false) (h2 : i.fetch_stall = false) :
    (step s i).2.bus_busy = false ↔ s.phase = .Push ∧ i.downstream_ready = false := by
  obtain ⟨ph, ss, la, ti, lo, pr, bc, wc⟩ := s
  cases ph <;> cases ss <;> cases hd : i.downstream_ready <;>
    simp [step, h1, h2, hd, idleOutputs, commitNext]

/-- Witness for the bus-release theorem: a stalled Push tick releases the
bus. -/
theorem bus_release_iff_witness :
    (step ⟨.Push, .Request, .Background, 0, 0, List.replicate 8 0, 0, 0⟩ stallInputs).2.bus_busy
      = false :=
  (bus_release_iff ⟨.Push, .Request, .Background, 0, 0, List.replicate 8 0, 0, 0⟩
      stallInputs rfl rfl).mpr ⟨rfl, rfl⟩

/-- Claim C5: the row assembled on the DataHigh Settle tick mixes the
latched low byte with the sampled high byte so that pixel k is
(((high >> k) & 1) << 1) | ((low >> k) & 1), with pixel 0 drawn from the
least-significant bit position, and every pixel is at most 3. -/
theorem pixel_row_mix (s : FetcherState) (i : FetcherInputs) (k : Nat)
    (hp : s.phase = .DataHigh) (hs : s.substep = .Settle)
    (h1 : i.reset = false) (h2 : i.fetch_stall = false) (hk : k < 8) :
    (step s i).1.pending_row = make_row s.latched_low_byte (sampleByte i) ∧
    (make_row s.latched_low_byte (sampleByte i))[k]?
      = some ((((sampleByte i >>> k) &&& 1) <<< 1) ||| ((s.latched_low_byte >>> k) &&& 1)) ∧
    ∀ q ∈ make_row s.latched_low_byte (sampleByte i), q ≤ 3 := by
  obtain ⟨ph, ss, la, ti, lo, pr, bc, wc⟩ := s
  simp only [FetcherState.phase] at hp
  simp only [FetcherState.substep] at hs
  subst hp
  subst hs
  refine ⟨?_, ?_, ?_⟩
  · cases hd : i.downstream_ready <;> cases la <;>
      simp [step, h1, h2, hd, commitNext]
  · simp [make_row, hk]
  · intro q hq
    simp only [make_row, List.mem_map, List.mem_range] at hq
    obtain ⟨j, _, rfl⟩ := hq
    exact pix_le_three _ _ Nat.and_le_right Nat.and_le_right

/-- Witness for the pixel-mixing theorem with low byte 0xAB and high byte
0 at pixel 0. -/
theorem pixel_row_mix_witness :
    (step ⟨.DataHigh, .Settle, .Background, 0, 0xAB, List.replicate 8 0, 0, 0⟩
        nonpushInputs).1.pending_row = make_row 0xAB (sampleByte nonpushInputs) ∧
    (make_row 0xAB (sampleByte nonpushInputs))[0]?
      = some ((((sampleByte nonpushInputs >>> 0) &&& 1) <<< 1) ||| ((0xAB >>> 0) &&& 1)) :=
  ⟨(pixel_row_mix ⟨.DataHigh, .Settle, .Background, 0, 0xAB, List.replicate 8 0, 0, 0⟩
      nonpushInputs 0 rfl rfl rfl rfl (by decide)).1,
   (pixel_row_mix ⟨.DataHigh, .Settle, .Background, 0, 0xAB, List.replicate 8 0, 0, 0⟩
      nonpushInputs 0 rfl rfl rfl rfl (by decide)).2.1⟩

/-- Counterexample to claim C3 as stated: on the seventh step-tick from
reset under the inputs of test_no_bg_fifo (consumer never ready), the
pipeline asserts row_valid even though downstream_ready is false — the
test itself asserts valid_pixels_out high with the bus released on every
stall tick, so row_valid does not stay low while the consumer is stalled. -/
theorem row_gating_counterexample :
    stallInputs.downstream_ready = false ∧
    (step (stepsFrom resetState stallInputs 6) stallInputs).2.row_valid = true := by
  exact ⟨rfl, by decide⟩

/-- Claim C3 as amended: once the pipeline is waiting in the Push phase,
every tick with the consumer not ready holds the whole state (the pending
row in particular) constant with row_valid asserted and the bus released;
the row is committed on exactly the first tick with the consumer ready,
which asserts row_valid and the bus and returns to a TileNumber request. -/
theorem row_hold_and_commit (s : FetcherState) (i : FetcherInputs)
    (hp : s.phase = .Push) (h1 : i.reset = false) (h2 : i.fetch_stall = false) :
    (i.downstream_ready = false →
        (step s i).1 = s ∧
        (step s i).2.row_valid = true ∧
        (step s i).2.row_out = s.pending_row ∧
        (step s i).2.bus_busy = false) ∧
    (i.downstream_ready = true →
        (step s i).1 = commitNext i s ∧
        (step s i).1.phase = .TileNumber ∧
        (step s i).2.row_valid = true ∧
        (step s i).2.row_out = s.pending_row ∧
        (step s i).2.bus_busy = true) := by
  obtain ⟨ph, ss, la, ti, lo, pr, bc, wc⟩ := s
  simp only [FetcherState.phase] at hp
  subst hp
  constructor <;> intro hd <;> cases ss <;> cases la <;>
    simp [step, h1, h2, hd, commitNext, idleOutputs]

/-- Witness for the amended row-gating theorem on a stalled Push tick. -/
theorem row_hold_and_commit_witness :
    (step ⟨.Push, .Request, .Background, 0, 0, make_row 0 0, 3, 0⟩ stallInputs).1
      = ⟨.Push, .Request, .Background, 0, 0, make_row 0 0, 3, 0⟩ ∧
    (step ⟨.Push, .Request, .Background, 0, 0, make_row 0 0, 3, 0⟩ stallInputs).2.row_valid
      = true :=
  ⟨((row_hold_and_commit ⟨.Push, .Request, .Background, 0, 0, make_row 0 0, 3, 0⟩
      stallInputs rfl rfl rfl).1 rfl).1,
   ((row_hold_and_commit ⟨.Push, .Request, .Background, 0, 0, make_row 0 0, 3, 0⟩
      stallInputs rfl rfl rfl).1 rfl).2.1⟩

/-- Claim C1: with the memory data-valid flag low throughout a fetch cycle
under signed addressing and a zero in-tile row, the sentinel byte 0xFF is
substituted for every sampled byte and the machine never faults: the tile
index becomes 0xFF, which Signed8800 addressing interprets as -1, so the
DataLow request asserts address 0x9000 - 16 = 0x8FF0 and the DataHigh
request asserts 0x8FF1, and the emitted row is eight pixels of value 3. -/
theorem signed_missing_data (i : FetcherInputs)
    (h1 : i.reset = false) (h2 : i.fetch_stall = false) (h3 : i.mem_data_valid = false)
    (h4 : i.addressing_mode = .Signed8800) (h5 : i.downstream_ready = true)
    (h6 : (i.pixel_y + i.scroll_y) % 8 = 0) :
    signedVal .Signed8800 0xFF = -1 ∧
    (stepsFrom resetState i 2).tile_index = 0xFF ∧
    (step (stepsFrom resetState i 2) i).2.mem_address = 0x8FF0 ∧
    (step (stepsFrom resetState i 2) i).2.mem_address_valid = true ∧
    (step (stepsFrom resetState i 4) i).2.mem_address = 0x8FF1 ∧
    (step (stepsFrom resetState i 4) i).2.mem_address_valid = true ∧
    (step (stepsFrom resetState i 5) i).2.row_valid = true ∧
    (step (stepsFrom resetState i 5) i).2.row_out = List.replicate 8 3 := by
  have e1 : stepsFrom resetState i 1
      = ⟨.TileNumber, .Settle, .Background, 0, 0, List.replicate 8 0, 0, 0⟩ := by
    show (step resetState i).1 = _
    simp [step, h1, h2, resetState]
  have e2 : stepsFrom resetState i 2
      = ⟨.DataLow, .Request, .Background, 0xFF, 0, List.replicate 8 0, 0, 0⟩ := by
    show (step (stepsFrom resetState i 1) i).1 = _
    rw [e1]
    simp [step, h1, h2, sampleByte, h3]
  have e3 : stepsFrom resetState i 3
      = ⟨.DataLow, .Settle, .Background, 0xFF, 0, List.replicate 8 0, 0, 0⟩ := by
    show (step (stepsFrom resetState i 2) i).1 = _
    rw [e2]
    simp [step, h1, h2]
  have e4 : stepsFrom resetState i 4
      = ⟨.DataHigh, .Request, .Background, 0xFF, 0xFF, List.replicate 8 0, 0, 0⟩ := by
    show (step (stepsFrom resetState i 3) i).1 = _
    rw [e3]
    simp [step, h1, h2, sampleByte, h3]
  have e5 : stepsFrom resetState i 5
      = ⟨.DataHigh, .Settle, .Background, 0xFF, 0xFF, List.replicate 8 0, 0, 0⟩ := by
    show (step (stepsFrom resetState i 4) i).1 = _
    rw [e4]
    simp [step, h1, h2]
  have hlow : dataLowAddr i 0xFF = 0x8FF0 := by
    simp [dataLowAddr, h4, signedVal, dataBase, rowOffset, h6]
  refine ⟨by decide, by rw [e2], ?_, ?_, ?_, ?_, ?_, ?_⟩
  · rw [e2]
    simpa [step, h1, h2] using hlow
  · rw [e2]
    simp [step, h1, h2]
  · rw [e4]
    simp only [step, h1, h2]
    simpa [step, h1, h2] using congrArg (· + 1) hlow
  · rw [e4]
    simp [step, h1, h2]
  · rw [e5]
    simp [step, h1, h2, h5]
  · rw [e5]
    simp [step, h1, h2, h5, sampleByte, h3]
    decide

/-- Witness for the missing-data theorem under the constant inputs of
test_no_valid_data. -/
theorem signed_missing_data_witness :
    noDataInputs.mem_data_valid = false ∧
    noDataInputs.downstream_ready = true ∧
    (step (stepsFrom resetState noDataInputs 2) noDataInputs).2.mem_address = 0x8FF0 ∧
    (step (stepsFrom resetState noDataInputs 5) noDataInputs).2.row_out
      = List.replicate 8 3 :=
  ⟨rfl, rfl,
   (signed_missing_data noDataInputs rfl rfl rfl rfl rfl (by decide)).2.2.1,
   (signed_missing_data noDataInputs rfl rfl rfl rfl rfl (by decide)).2.2.2.2.2.2.2⟩

end FPGABoy
